import Mathlib

/-!
Verification of the NYC rent & crime dashboard (`src/app.py`) against its
natural-language specification.

The development shallowly embeds the parts of `app.py` that the claims are
about:

* the dataset ingestion of the ZIP-codes column (`app.py` lines 17-41),
* the per-ZIP metrics summary computed inside the `update_map` callback
  (`app.py` lines 455-533),
* the geocode / nearby-place / walking-time pipeline of `update_map`
  (`app.py` lines 315-453 and 556-563).

Machine reals of the source (rents, danger ratios, walking minutes,
coordinates) are modelled as rationals; dates as explicit
year/month/day records ordered lexicographically, which is how pandas
compares datetime values.  External HTTP replies are modelled as inductive
reply values supplied by an environment, so one search is a pure function
of its inputs and of the replies it would receive.
-/

namespace NycApp

/-- A calendar date, modelling the pandas `datetime64` values of the
`date` column.  pandas compares timestamps chronologically, which for
year/month/day is the lexicographic order used below. -/
structure Date where
  year : Nat
  month : Nat
  day : Nat
deriving DecidableEq, Repr

/-- Chronological strict order on dates (lexicographic on year, month, day). -/
def Date.ltb (a b : Date) : Bool :=
  decide (a.year < b.year) ||
    (decide (a.year = b.year) &&
      (decide (a.month < b.month) ||
        (decide (a.month = b.month) && decide (a.day < b.day))))

/-- Chronological order on dates (lexicographic on year, month, day). -/
def Date.leb (a b : Date) : Bool :=
  decide (a.year < b.year) ||
    (decide (a.year = b.year) &&
      (decide (a.month < b.month) ||
        (decide (a.month = b.month) && decide (a.day ≤ b.day))))

/-- `date.replace(day=1)` from `app.py` line 490: the month start of a date. -/
def Date.monthStart (d : Date) : Date :=
  ⟨d.year, d.month, 1⟩

/-- One row of the cleaned dataset `merged_df` (`app.py` lines 19-24), with
the columns the `update_map` summary uses: `ZIP Codes` (already parsed to a
list of strings), `date`, `law_cat_cd`, `count`, `precinct_area`,
`median_rent` and `danger_ratio`.  Nullable numeric columns are `Option ℚ`
(`none` = NaN). -/
structure Record where
  zipCodes : List String
  date : Date
  lawCat : String
  count : Nat
  precinctArea : String
  medianRent : Option ℚ
  dangerRatio : Option ℚ
deriving DecidableEq, Repr

/-!  ## Danger-ratio derivation (spec §4.5, claim C1)

The repository ships `danger_ratio` precomputed inside the data file; the
code that generated that column is not part of `src/`.  `app.py` only
documents the formula in the dashboard layout (lines 212-218): FELONYs
weighted 3, MISDEMEANORs 2, VIOLATIONs 1, divided by the median rent. -/

/-- Modelled from the spec: the weighted crime count of a precinct-month
aggregate, `3*felonyCount + 2*misdemeanorCount + 1*violationCount`
(spec §4.5); the dataset-generation code that computes it is not in `src/`,
only the layout text of `app.py` lines 212-218 states the weights. -/
def weightedCrime (f m v : Nat) : Nat :=
  3 * f + 2 * m + 1 * v

/-- Modelled from the spec: the standalone danger-ratio derivation of
spec §4.5, `weightedCrime / medianRent` when the rent is present and
positive, null otherwise; the dataset-generation code that computes the
`danger_ratio` column is not in `src/`. -/
def dangerRatio (f m v : Nat) (rent : Option ℚ) : Option ℚ :=
  match rent with
  | none => none
  | some r => if 0 < r then some ((weightedCrime f m v : ℚ) / r) else none

/-!  ## Metrics aggregator (`update_map` steps 3-4, `app.py` lines 455-533) -/

/-- `app.py` lines 456-461: the rows of `merged_df` whose `ZIP Codes` list
contains the searched ZIP code. -/
def dfZip (ds : List Record) (z : String) : List Record :=
  ds.filter (fun r => r.zipCodes.contains z)

/-- `df_zip["date"].max()` (`app.py` line 488): the maximum date of the
selected rows, `none` on an empty selection. -/
def maxDate : List Record → Option Date
  | [] => none
  | r :: rs => some (rs.foldl (fun acc s => if Date.leb acc s.date then s.date else acc) r.date)

/-- `latest_month_start` (`app.py` line 490): the maximum date of the ZIP's
rows truncated to the first of its month. -/
def latestMonthStart (ds : List Record) (z : String) : Option Date :=
  (maxDate (dfZip ds z)).map Date.monthStart

/-- `df_latest_month` (`app.py` line 494): the ZIP's rows dated at or after
the latest month start. -/
def dfLatestMonth (ds : List Record) (z : String) : List Record :=
  match latestMonthStart ds z with
  | none => []
  | some m => (dfZip ds z).filter (fun r => Date.leb m r.date)

/-- `app.py` lines 506-511: average of `median_rent` over the latest month,
shown only when the frame is nonempty and some rent is non-null; pandas
`.mean()` averages the non-null entries. -/
def avgRentLatestMonth (ds : List Record) (z : String) : Option ℚ :=
  let m := dfLatestMonth ds z
  let vals := m.filterMap (fun r => r.medianRent)
  if ¬ m = [] ∧ ¬ vals = [] then some (vals.sum / (vals.length : ℚ)) else none

/-- `app.py` lines 528-533: average of `danger_ratio` over the latest month,
under the same non-null guard as the rent average. -/
def avgDangerLatestMonth (ds : List Record) (z : String) : Option ℚ :=
  let m := dfLatestMonth ds z
  let vals := m.filterMap (fun r => r.dangerRatio)
  if ¬ m = [] ∧ ¬ vals = [] then some (vals.sum / (vals.length : ℚ)) else none

/-- One step of building the `groupby("law_cat_cd")["count"].sum()`
dictionary: add `n` to the entry of key `k`, creating it at the end when
absent. -/
def bumpKey (k : String) (n : Nat) : List (String × Nat) → List (String × Nat)
  | [] => [(k, n)]
  | (k', m) :: t => if k' = k then (k', m + n) :: t else (k', m) :: bumpKey k n t

/-- `crime_counts_latest_month` (`app.py` line 516): per-category sums of
`count` over the latest month, as a key-value list. -/
def crimeCountsLatestMonth (ds : List Record) (z : String) : List (String × Nat) :=
  (dfLatestMonth ds z).foldl (fun acc r => bumpKey r.lawCat r.count acc) []

/-- `dict.get(key, 0)` (`app.py` lines 519-521): look a category up in the
counts dictionary, defaulting to 0. -/
def dictGet (d : List (String × Nat)) (k : String) : Nat :=
  match d.find? (fun p => p.1 == k) with
  | some p => p.2
  | none => 0

/-- Mathematical mean of a list of rationals, `none` on the empty list.
This is the spec's phrasing "mean of non-null values, or null if none
present" (spec §4.3 steps 4 and 6), stated independently of the code's
guard so the two can be compared. -/
def listMeanQ (l : List ℚ) : Option ℚ :=
  if l = [] then none else some (l.sum / (l.length : ℚ))

/-!  ## `latest_overall_data_point` (`app.py` lines 496-501, claim C3)

`df_zip.sort_values(by="date", ascending=False).iloc[0]`.  For a
descending sort, `pandas.core.sorting.nargsort` reverses the values
*before* taking the ascending argsort and reverses the resulting indexer
*after* — a double reversal, the classic stable-descending construction
(pandas guards it with the regression test
`test_sort_values_stable_descending_sort`, GH 6399).  Rows sharing a key
therefore keep their original relative order in the descending output.
The embedding below mirrors the double reversal: reverse the rows, sort
them ascending with a stable insertion sort, reverse the result, and take
the head. -/

/-- Stable insertion of a record into a date-ascending list: the record
goes before the first element not strictly older than it, so an earlier
original element stays before later elements with an equal date. -/
def insByDate (x : Record) : List Record → List Record
  | [] => [x]
  | y :: ys => if Date.ltb y.date x.date then y :: insByDate x ys else x :: y :: ys

/-- Stable ascending sort by date (insertion sort). -/
def sortAscByDate : List Record → List Record
  | [] => []
  | x :: xs => insByDate x (sortAscByDate xs)

/-- `df_zip.sort_values(by="date", ascending=False)`: pandas `nargsort`
reverses the rows, takes a stable ascending argsort, and reverses the
result again, so date ties keep their original relative order (stable
descending). -/
def sortDescByDate (l : List Record) : List Record :=
  (sortAscByDate l.reverse).reverse

/-- `latest_overall_data_point` (`app.py` line 498): the first row of the
date-descending sort. -/
def latestOverallDataPoint (ds : List Record) (z : String) : Option Record :=
  (sortDescByDate (dfZip ds z)).head?

/-- The precinct area reported in the summary (`app.py` line 501). -/
def reportedPrecinctArea (ds : List Record) (z : String) : Option String :=
  (latestOverallDataPoint ds z).map (fun r => r.precinctArea)

/-- The newer of a record and an optional record, preferring the optional
one on a date tie (it stands for a later-occurring record). -/
def pickNewer (x : Record) : Option Record → Record
  | none => x
  | some m => if Date.ltb m.date x.date then x else m

/-- The last record of a list attaining the maximum date: scanning from the
left, a later record displaces the current best unless it is strictly
older.  Auxiliary: it characterises the last element of the stable
ascending sort. -/
def lastMaxRecord : List Record → Option Record
  | [] => none
  | x :: xs => some (pickNewer x (lastMaxRecord xs))

/-- The older-positioned of a record and an optional record: the record
wins unless it is strictly older than the optional one, so on a date tie
the earlier-occurring record is preferred. -/
def pickOlder (x : Record) : Option Record → Record
  | none => x
  | some m => if Date.ltb x.date m.date then m else x

/-- The first record of a list attaining the maximum date — ties broken by
original order, first occurring (spec §4.3 step 7). -/
def firstMaxRecord : List Record → Option Record
  | [] => none
  | x :: xs => some (pickOlder x (firstMaxRecord xs))

/-!  ## Geospatial pipeline of `update_map` (`app.py` lines 315-453, 556-563)

The three upstream HTTP endpoints are modelled as reply values carried by
an environment: one reply for the geocode request, one places reply per
category, and one distance-matrix reply per destination coordinate.  A
parsed JSON reply is a `reply` constructor holding the fields the code
reads; a `requests` exception (connection error or `raise_for_status`) is
`networkError`.  Console `print` output that the code emits on non-fatal
per-candidate failures is modelled as a `warnings` list, kept separate
from the `api_errors` list that the code renders into the info box. -/

/-- A latitude/longitude pair as read from a reply's `geometry.location`. -/
structure GeoLocation where
  lat : ℚ
  lng : ℚ
deriving DecidableEq, Repr

/-- Reply to the geocoding request (`app.py` lines 329-332): parsed status,
optional upstream error message and result locations, or a network error. -/
inductive GeoReply where
  | reply (status : String) (errorMessage : String) (results : List GeoLocation)
  | networkError (e : String)
deriving DecidableEq, Repr

/-- Reply to the nearby-places request for one category (`app.py` lines
373-376).  Each result is a candidate place: a name and, when the JSON
carried a usable `geometry.location` with both coordinates, its location
(`none` models both skip paths of lines 430-433). -/
structure CandidatePlace where
  name : String
  location : Option GeoLocation
deriving DecidableEq, Repr

/-- Reply to a nearby-places request, or a network error. -/
inductive PlacesReply where
  | reply (status : String) (errorMessage : String) (results : List CandidatePlace)
  | networkError (e : String)
deriving DecidableEq, Repr

/-- Reply to one distance-matrix request (`app.py` lines 390-393): the top
status, the first element's status, the upstream error message, and the
duration value in seconds when present.  `rows[0].elements[0]` is modelled
as present, as the code assumes when it matches. -/
inductive DistReply where
  | reply (status : String) (elementStatus : String) (errorMessage : String)
      (durationSecs : Option ℚ)
  | networkError (e : String)
deriving DecidableEq, Repr

/-- The replies one search would receive: the geocode reply, a places reply
per category string, and a distance-matrix reply per destination (the
origin is the geocoded point, fixed for the whole search). -/
structure MapEnv where
  geo : GeoReply
  places : String → PlacesReply
  dist : GeoLocation → DistReply

/-- `PLACE_COLORS` (`app.py` lines 78-85). -/
def PLACE_COLORS : List (String × String) :=
  [("supermarket", "blue"), ("hospital", "red"), ("subway_station", "orange"),
   ("park", "green"), ("school", "purple"), ("library", "brown")]

/-- Whether a place type has a colour, the guard of `app.py` line 368. -/
def isKnownType (t : String) : Bool :=
  PLACE_COLORS.any (fun p => p.1 == t)

/-- `PLACE_COLORS[place_type]` (defaulting to "" for the types the guard
already excluded). -/
def colorOf (t : String) : String :=
  match PLACE_COLORS.find? (fun p => p.1 == t) with
  | some p => p.2
  | none => ""

/-- Geocode failure message of `app.py` line 344.  The source interpolates
with an f-string; the concatenation below is the same text. -/
def geoFailMsg (zip status em : String) : String :=
  "❌ Geocoding failed for " ++ (zip ++ (". Status: " ++ (status ++ (". Message: " ++
    (em ++ ". Check ZIP or API key.")))))

/-- Geocode network-error message of `app.py` line 350. -/
def geoNetErrMsg (zip e : String) : String :=
  "❌ Network error during Geocoding for " ++ (zip ++ (": " ++ e))

/-- Places API error message of `app.py` line 440. -/
def placesApiMsg (t status em : String) : String :=
  "Places API Error for type " ++ (t ++ (". Status: " ++ (status ++ (". Message: " ++ em))))

/-- Places network-error message of `app.py` line 445. -/
def placesNetMsg (t e : String) : String :=
  "Network error during Places API search for " ++ (t ++ (": " ++ e))

/-- Console message of `app.py` line 436 for a ZERO_RESULTS places reply. -/
def zeroResultsMsg (t : String) : String :=
  "No " ++ (t ++ " places found nearby via Places API.")

/-- Console message of `app.py` line 419 for a non-OK distance-matrix
status.  The source wraps the place name in single quotes; the quotes are
omitted here. -/
def distApiMsg (name status em : String) : String :=
  "Distance Matrix API Error for " ++ (name ++ (". Status: " ++ (status ++
    (". Message: " ++ em))))

/-- Console message of `app.py` line 423 for a non-OK element status. -/
def distElemMsg (name elst : String) : String :=
  "Distance Matrix element status for " ++ (name ++ (": " ++ (elst ++
    ". Could not calculate walking time.")))

/-- Console message of `app.py` line 426 for a distance-matrix network error. -/
def distNetMsg (name e : String) : String :=
  "Network error during Distance Matrix for " ++ (name ++ (": " ++ e))

/-- Console message of `app.py` lines 431-433 for a candidate with no usable
coordinates. -/
def geomSkipMsg (name : String) : String :=
  "Skipping place " ++ (name ++ " due to missing geometry or coordinates.")

/-- Console message of `app.py` line 369 for a place type with no colour. -/
def unknownTypeMsg (t : String) : String :=
  "Warning: No color defined for place type: " ++ (t ++ ", skipping.")

/-- Outcome of the geocoding step (`app.py` lines 328-358): either the
coordinates of the first result, or the failure message the callback
surfaces.  The success branch requires status "OK" and a nonempty results
list (`app.py` line 334); every other reply falls to the message of line
344, and a network error to the message of line 350. -/
inductive GeocodeOutcome where
  | ok (loc : GeoLocation)
  | fail (msg : String)
deriving DecidableEq, Repr

/-- The geocoding step of `update_map` (`app.py` lines 328-358). -/
def geocodeStep (zip : String) (r : GeoReply) : GeocodeOutcome :=
  match r with
  | .networkError e => .fail (geoNetErrMsg zip e)
  | .reply status em results =>
    match results with
    | loc :: _ => if status = "OK" then .ok loc else .fail (geoFailMsg zip status em)
    | [] => .fail (geoFailMsg zip status em)

/-- A place kept by the walking-time filter: the circle marker data of
`app.py` lines 407-416 (name, position, walking minutes, colour). -/
structure ReachedPlace where
  name : String
  loc : GeoLocation
  mins : ℚ
  color : String
deriving DecidableEq, Repr

/-- What processing one category (or one candidate) contributes: kept
places, the per-category count increment, console warnings, `api_errors`
entries, and the destinations a distance-matrix request was issued for. -/
structure CatResult where
  places : List ReachedPlace
  count : Nat
  warnings : List String
  errors : List String
  distCalls : List GeoLocation
deriving DecidableEq, Repr

/-- Processing of one candidate place (`app.py` lines 382-433): skip it
without a distance request when it has no usable coordinates; otherwise
issue the distance request and keep the candidate iff the reply has OK
statuses and a duration of at most the budget in minutes.  Every failing
reply only prints (lines 418-428) — nothing is appended to `api_errors`. -/
def processCandidate (budget : ℚ) (color : String) (dist : GeoLocation → DistReply)
    (c : CandidatePlace) : CatResult :=
  match c.location with
  | none => ⟨[], 0, [geomSkipMsg c.name], [], []⟩
  | some loc =>
    match dist loc with
    | .networkError e => ⟨[], 0, [distNetMsg c.name e], [], [loc]⟩
    | .reply st elst em dur =>
      match dur with
      | some secs =>
        if st = "OK" ∧ elst = "OK" then
          if secs / 60 ≤ budget then
            ⟨[⟨c.name, loc, secs / 60, color⟩], 1, [], [], [loc]⟩
          else ⟨[], 0, [], [], [loc]⟩
        else if ¬ st = "OK" then ⟨[], 0, [distApiMsg c.name st em], [], [loc]⟩
        else ⟨[], 0, [distElemMsg c.name elst], [], [loc]⟩
      | none =>
        if ¬ st = "OK" then ⟨[], 0, [distApiMsg c.name st em], [], [loc]⟩
        else if ¬ elst = "OK" then ⟨[], 0, [distElemMsg c.name elst], [], [loc]⟩
        else ⟨[], 0, [], [], [loc]⟩

/-- A distance-matrix reply that fails for its candidate: a network error,
a non-OK top status, or a non-OK element status — the three per-candidate
failure modes of `app.py` lines 418-428. -/
def distFails : DistReply → Prop
  | .networkError _ => True
  | .reply st elst _ _ => ¬ st = "OK" ∨ ¬ elst = "OK"

/-- Concatenation of what two processing steps contributed, in order. -/
def combineCat (a b : CatResult) : CatResult :=
  ⟨a.places ++ b.places, a.count + b.count, a.warnings ++ b.warnings,
   a.errors ++ b.errors, a.distCalls ++ b.distCalls⟩

/-- The empty contribution. -/
def emptyCat : CatResult := ⟨[], 0, [], [], []⟩

/-- Processing of one known category (`app.py` lines 372-451): the places
request is issued; on status OK with a nonempty results list each candidate
is processed in order, a ZERO_RESULTS status only prints (lines 435-436),
and any other reply — any other status, an OK status with an empty results
list, or a network error — appends one entry to `api_errors` (lines
437-451). -/
def processCategory (budget : ℚ) (t : String) (pr : PlacesReply)
    (dist : GeoLocation → DistReply) : CatResult :=
  match pr with
  | .networkError e => ⟨[], 0, [], [placesNetMsg t e], []⟩
  | .reply status em results =>
    if status = "OK" ∧ ¬ results = [] then
      (results.map (processCandidate budget (colorOf t) dist)).foldr combineCat emptyCat
    else if status = "ZERO_RESULTS" then ⟨[], 0, [zeroResultsMsg t], [], []⟩
    else ⟨[], 0, [], [placesApiMsg t status em], []⟩

/-- Accumulated state of the search-places loop (`app.py` lines 360-453):
the `place_markers` list, the `places_count_by_type` dictionary, console
warnings, the `api_errors` list, the categories a places request was issued
for, and the destinations a distance request was issued for. -/
structure SPState where
  placeMarkers : List ReachedPlace
  counts : List (String × Nat)
  warnings : List String
  errors : List String
  lookups : List String
  distCalls : List GeoLocation
deriving DecidableEq, Repr

/-- The keys of a key-value list. -/
def dictKeys (d : List (String × Nat)) : List String :=
  d.map (fun p => p.1)

/-- `places_count_by_type[k] += n` under the `if place_type in
places_count_by_type` guard (`app.py` lines 404-405): add `n` to the entry
of `k` when the key exists, leave the dictionary unchanged otherwise. -/
def addCount (k : String) (n : Nat) : List (String × Nat) → List (String × Nat)
  | [] => []
  | (k', m) :: t => if k' = k then (k', m + n) :: t else (k', m) :: addCount k n t

/-- One insertion of the dict comprehension `{ptype: 0 for ptype in types}`
(`app.py` line 362): a repeated key keeps its first position (its value is
0 either way). -/
def insertKey (k : String) (d : List (String × Nat)) : List (String × Nat) :=
  if d.any (fun p => p.1 == k) then d else d ++ [(k, 0)]

/-- `{ptype: 0 for ptype in types}` (`app.py` line 362). -/
def initCounts (types : List String) : List (String × Nat) :=
  types.foldl (fun d t => insertKey t d) []

/-- One iteration of the `for place_type in types` loop (`app.py` lines
367-451): a type with no colour is skipped, with a console warning, before
any request is issued (lines 368-370); a known type is processed and its
contributions appended. -/
def stepType (budget : ℚ) (env : MapEnv) (s : SPState) (t : String) : SPState :=
  if isKnownType t then
    let r := processCategory budget t (env.places t) env.dist
    ⟨s.placeMarkers ++ r.places, addCount t r.count s.counts, s.warnings ++ r.warnings,
     s.errors ++ r.errors, s.lookups ++ [t], s.distCalls ++ r.distCalls⟩
  else
    ⟨s.placeMarkers, s.counts, s.warnings ++ [unknownTypeMsg t], s.errors, s.lookups,
     s.distCalls⟩

/-- The nearby-places search of `update_map` (`app.py` lines 360-453),
run after a successful geocode: initialise the per-type count dictionary
and fold the category loop over the requested types (an empty type list
skips the loop and leaves the dictionary empty, line 362 and line 365). -/
def searchPlaces (budget : ℚ) (types : List String) (env : MapEnv) : SPState :=
  types.foldl (stepType budget env) ⟨[], initCounts types, [], [], [], []⟩

/-- A marker of the returned `marker_layer` (`app.py` lines 339-340 and
407-416, assembled at line 453): the searched-ZIP pin or a coloured circle
for a reachable place. -/
inductive Marker where
  | zipPin (loc : GeoLocation)
  | circle (p : ReachedPlace)
deriving DecidableEq, Repr

/-- The per-ZIP summary data rendered into the info box on the success path
(`app.py` lines 463-548). -/
structure ZipSummaryView where
  zip : String
  precinctArea : Option String
  latestMonth : Option Date
  averageRent : Option ℚ
  felony : Nat
  misdemeanor : Nat
  violation : Nat
  averageDangerRatio : Option ℚ
  placeCounts : List (String × Nat)
  apiErrors : List String
deriving DecidableEq, Repr

/-- The info output of `update_map`: a plain message (the initial prompt,
the data-unavailable message, or a geocode failure message), the
no-data-for-this-ZIP summary of `app.py` lines 472-484, or the full summary
of lines 486-548. -/
inductive Info where
  | text (s : String)
  | noData (placeCounts : List (String × Nat)) (apiErrors : List String)
  | summary (v : ZipSummaryView)
deriving DecidableEq, Repr

/-- Everything `update_map` returns (and the requests it issued along the
way): the marker layer, the info box, the map centre and zoom, the places
lookups and distance requests made, and the final `api_errors` list. -/
structure UpdateOut where
  markers : List Marker
  info : Info
  center : ℚ × ℚ
  zoom : Nat
  lookups : List String
  distCalls : List GeoLocation
  apiErrors : List String
deriving DecidableEq, Repr

/-- Result of one invocation of the callback: `noSearch` models the
`dash.no_update` return of `app.py` line 317 (no click yet or no ZIP
entered), otherwise the four outputs. -/
inductive UpdateRes where
  | noSearch
  | out (o : UpdateOut)
deriving DecidableEq, Repr

/-- `app.py` line 320: the message shown when the dataset failed to load. -/
def dataFailMsg : String :=
  "❌ Data failed to load. Map data unavailable."

/-- The summary view assembled by `app.py` lines 486-548. -/
def zipSummaryView (ds : List Record) (z : String) (sp : SPState) : ZipSummaryView :=
  ⟨z, reportedPrecinctArea ds z, latestMonthStart ds z, avgRentLatestMonth ds z,
   dictGet (crimeCountsLatestMonth ds z) "FELONY",
   dictGet (crimeCountsLatestMonth ds z) "MISDEMEANOR",
   dictGet (crimeCountsLatestMonth ds z) "VIOLATION",
   avgDangerLatestMonth ds z, sp.counts, sp.errors⟩

/-- The `update_map` callback (`app.py` lines 315-563).  `n` is the click
count; `curCenter` and `curZoom` are the current map state.  With no click
or an empty ZIP the callback returns `no_update` (line 317); with an empty
dataset it returns the data-unavailable message with the map unchanged
(lines 319-321); a geocoding failure returns immediately with the failure
message, the map unchanged, and no places or distance request issued
(lines 341-358); on success the nearby search runs, the markers are the
place circles followed by the ZIP pin (line 453), the centre moves to the
geocoded point and the zoom becomes 12 (lines 556-559). -/
def updateMap (n : Nat) (zip : String) (budget : ℚ) (types : List String)
    (env : MapEnv) (ds : List Record) (curCenter : ℚ × ℚ) (curZoom : Nat) : UpdateRes :=
  if n = 0 ∨ zip = "" then .noSearch
  else if ds = [] then
    .out ⟨[], .text dataFailMsg, curCenter, curZoom, [], [], []⟩
  else
    match geocodeStep zip env.geo with
    | .fail msg => .out ⟨[], .text msg, curCenter, curZoom, [], [], [msg]⟩
    | .ok loc =>
      let sp := searchPlaces budget types env
      let info :=
        if dfZip ds zip = [] then Info.noData sp.counts sp.errors
        else Info.summary (zipSummaryView ds zip sp)
      .out ⟨sp.placeMarkers.map Marker.circle ++ [Marker.zipPin loc], info,
            (loc.lat, loc.lng), 12, sp.lookups, sp.distCalls, sp.errors⟩

/-!  ## Dataset ingestion of the ZIP-codes column (`app.py` lines 17-41,
claim C8)

Line 22 maps over the raw `ZIP Codes` column:
`lambda x: [str(z) for z in eval(x)] if isinstance(x, str) else []`.
A cell is modelled by the observable outcome of that lambda: a non-string
cell (NaN etc.) yields `[]`; a string cell either evaluates to a list of
strings or makes `eval` (or the conversion) raise.  `pandas.apply`
propagates the first exception, and the surrounding
`except Exception` (lines 34-41) then replaces the whole dataframe with an
empty one. -/

/-- The raw `ZIP Codes` cell of one CSV row, by the outcome of
`eval`-based parsing. -/
inductive ZipCell where
  | nonString
  | strList (zips : List String)
  | strBad
deriving DecidableEq, Repr

/-- One raw CSV row before the ZIP-codes column is parsed. -/
structure RawRow where
  zipCell : ZipCell
  date : Date
  lawCat : String
  count : Nat
  precinctArea : String
  medianRent : Option ℚ
  dangerRatio : Option ℚ
deriving DecidableEq, Repr

/-- The lambda of `app.py` line 22 on one cell: `[]` for a non-string,
the evaluated list for a parseable string, an exception (`none`) for an
unparseable string. -/
def parseZipCell : ZipCell → Option (List String)
  | .nonString => some []
  | .strList zs => some zs
  | .strBad => none

/-- The cleaned record a raw row becomes once its ZIP list is known. -/
def mkRecord (r : RawRow) (zs : List String) : Record :=
  ⟨zs, r.date, r.lawCat, r.count, r.precinctArea, r.medianRent, r.dangerRatio⟩

/-- `Series.apply` over the rows: the whole column parse succeeds only when
every cell parses; the first exception aborts it. -/
def applyZipParse : List RawRow → Option (List Record)
  | [] => some []
  | r :: rs =>
    match parseZipCell r.zipCell with
    | none => none
    | some zs =>
      match applyZipParse rs with
      | none => none
      | some recs => some (mkRecord r zs :: recs)

/-- The data-loading block of `app.py` lines 17-41: the parsed dataset, or
the empty dataframe of lines 37-41 when the column parse raised. -/
def loadData (rows : List RawRow) : List Record :=
  match applyZipParse rows with
  | some recs => recs
  | none => []

/-!  ## Concrete fixtures

Small datasets and environments used to instantiate the theorems: the
ZIP-10001 scenario of spec §8, a date-tie dataset, and sample reply
environments. -/

/-- A May 2024 row of the spec §8 scenario: rent 3000, and the
precomputed danger ratio of that precinct-month,
(3*2 + 2*1 + 1*0) / 3000. -/
def scenMay (cat : String) (c : Nat) : Record :=
  ⟨["10001"], ⟨2024, 5, 1⟩, cat, c, "Midtown South", some 3000, some (8 / 3000)⟩

/-- A June 2024 row of the spec §8 scenario: rent 3100, danger ratio
(3*1 + 2*0 + 1*1) / 3100. -/
def scenJun (cat : String) (c : Nat) : Record :=
  ⟨["10001"], ⟨2024, 6, 1⟩, cat, c, "Midtown South", some 3100, some (4 / 3100)⟩

/-- The spec §8 scenario dataset: ZIP 10001 with per-category rows for
2024-05 (felony 2, misdemeanor 1, violation 0, rent 3000) and 2024-06
(felony 1, misdemeanor 0, violation 1, rent 3100). -/
def scenDS : List Record :=
  [scenMay "FELONY" 2, scenMay "MISDEMEANOR" 1, scenMay "VIOLATION" 0,
   scenJun "FELONY" 1, scenJun "MISDEMEANOR" 0, scenJun "VIOLATION" 1]

/-- A dataset with two records sharing the maximum date: first "Area A",
then "Area B". -/
def tieDS : List Record :=
  [⟨["10001"], ⟨2024, 6, 1⟩, "FELONY", 1, "Area A", some 3000, none⟩,
   ⟨["10001"], ⟨2024, 6, 1⟩, "MISDEMEANOR", 2, "Area B", some 3000, none⟩]

/-- Three candidate places with coordinates. -/
def candA : CandidatePlace := ⟨"Alpha Market", some ⟨407, -739⟩⟩

/-- Second candidate. -/
def candB : CandidatePlace := ⟨"Bravo Market", some ⟨408, -740⟩⟩

/-- Third candidate. -/
def candC : CandidatePlace := ⟨"Charlie Market", some ⟨409, -741⟩⟩

/-- A distance oracle: 240 s to Alpha, a network error for Bravo, 420 s to
Charlie, 600 s elsewhere. -/
def distSample (loc : GeoLocation) : DistReply :=
  if loc = ⟨407, -739⟩ then .reply "OK" "OK" "" (some 240)
  else if loc = ⟨408, -740⟩ then .networkError "timeout"
  else if loc = ⟨409, -741⟩ then .reply "OK" "OK" "" (some 420)
  else .reply "OK" "OK" "" (some 600)

/-- A places oracle: the three candidates for supermarkets, ZERO_RESULTS
for every other category. -/
def placesSample (t : String) : PlacesReply :=
  if t = "supermarket" then .reply "OK" "" [candA, candB, candC]
  else .reply "ZERO_RESULTS" "" []

/-- A fully successful environment built on the sample oracles. -/
def envOk : MapEnv :=
  ⟨.reply "OK" "" [⟨4073, -7394⟩], placesSample, distSample⟩

/-- An environment whose geocode request hits a network error. -/
def envGeoNet : MapEnv :=
  ⟨.networkError "boom", placesSample, distSample⟩

/-- An environment whose geocode reply is status OK with an empty results
list. -/
def envGeoEmpty : MapEnv :=
  ⟨.reply "OK" "" [], placesSample, distSample⟩

/-!  ## Order lemmas for dates -/

/-- If `b` is not strictly before `a` then `a ≤ b`. -/
theorem Date.leb_of_ltb_false {a b : Date} (h : Date.ltb b a = false) :
    Date.leb a b = true := by
  simp [Date.ltb, Date.leb] at *
  omega

/-- Strict order implies order. -/
theorem Date.leb_of_ltb {a b : Date} (h : Date.ltb a b = true) :
    Date.leb a b = true := by
  simp [Date.ltb, Date.leb] at *
  omega

/-- `≤` is reflexive. -/
theorem Date.leb_refl (a : Date) : Date.leb a a = true := by
  simp [Date.leb]

/-- `≤` followed by `<` gives `<`. -/
theorem Date.ltb_of_leb_of_ltb {a b c : Date} (h1 : Date.leb a b = true)
    (h2 : Date.ltb b c = true) : Date.ltb a c = true := by
  simp [Date.ltb, Date.leb] at *
  omega

/-- Transitivity of `≤`. -/
theorem Date.leb_trans {a b c : Date} (h1 : Date.leb a b = true)
    (h2 : Date.leb b c = true) : Date.leb a c = true := by
  simp [Date.leb] at *
  omega

/-- Transitivity of `<`. -/
theorem Date.ltb_trans {a b c : Date} (h1 : Date.ltb a b = true)
    (h2 : Date.ltb b c = true) : Date.ltb a c = true :=
  Date.ltb_of_leb_of_ltb (Date.leb_of_ltb h1) h2

/-- `<` is irreflexive. -/
theorem Date.ltb_irrefl (a : Date) : Date.ltb a a = false := by
  simp [Date.ltb]

/-- `a ≤ b` forbids `b < a`. -/
theorem Date.ltb_eq_false_of_leb {a b : Date} (h : Date.leb a b = true) :
    Date.ltb b a = false := by
  cases hq : Date.ltb b a with
  | false => rfl
  | true =>
    have h2 := Date.ltb_of_leb_of_ltb h hq
    rw [Date.ltb_irrefl] at h2
    cases h2

/-!  ## Lemmas on the date-descending sort (for claim C3) -/

/-- Insertion never produces the empty list. -/
theorem insByDate_ne_nil (x : Record) (s : List Record) : ¬ insByDate x s = [] := by
  cases s with
  | nil => simp [insByDate]
  | cons y ys =>
    simp only [insByDate]
    split <;> simp

/-- Membership after insertion. -/
theorem mem_insByDate {a x : Record} (s : List Record) :
    a ∈ insByDate x s ↔ a = x ∨ a ∈ s := by
  induction s with
  | nil => simp [insByDate]
  | cons y ys ih =>
    show a ∈ (if Date.ltb y.date x.date = true then y :: insByDate x ys else x :: y :: ys) ↔ _
    split
    · simp only [List.mem_cons, ih]
      tauto
    · simp only [List.mem_cons]

/-- A nonempty list has a last element. -/
theorem getLast?_cons_isSome (a : Record) (l : List Record) :
    ∃ m, (a :: l).getLast? = some m := by
  induction l generalizing a with
  | nil => exact ⟨a, rfl⟩
  | cons b t ih =>
    rw [List.getLast?_cons_cons]
    exact ih b

/-- A list with no last element is empty. -/
theorem eq_nil_of_getLast?_eq_none {l : List Record} (h : l.getLast? = none) :
    l = [] := by
  cases l with
  | nil => rfl
  | cons a t =>
    obtain ⟨m, hm⟩ := getLast?_cons_isSome a t
    rw [hm] at h
    cases h

/-- Every element of `s` dates at or before the last element of `s`. -/
def InvLast (s : List Record) : Prop :=
  ∀ y ∈ s, ∀ m, s.getLast? = some m → Date.leb y.date m.date = true

/-- The tail of a list inherits the last-is-max invariant. -/
theorem InvLast.tail {y : Record} {ys : List Record} (h : InvLast (y :: ys)) :
    InvLast ys := by
  intro a ha m hm
  cases ys with
  | nil => cases hm
  | cons z zs =>
    apply h a (List.mem_cons_of_mem y ha) m
    rw [List.getLast?_cons_cons]
    exact hm

/-- The last element after inserting `x` into a list whose last element is a
maximum: `x` when it is strictly newer than the old last element, the old
last element otherwise. -/
theorem getLast?_insByDate (x : Record) (s : List Record) (h : InvLast s) :
    (insByDate x s).getLast? = some (pickNewer x s.getLast?) := by
  induction s with
  | nil => rfl
  | cons y ys ih =>
    have hstep : insByDate x (y :: ys) =
        if Date.ltb y.date x.date = true then y :: insByDate x ys else x :: y :: ys := rfl
    cases hlt : Date.ltb y.date x.date with
    | true =>
      rw [hstep, if_pos hlt]
      cases ys with
      | nil =>
        show some x = some (pickNewer x (some y))
        simp only [pickNewer, hlt, if_true]
      | cons z zs =>
        rw [List.getLast?_cons_cons, ← ih h.tail]
        cases hc : insByDate x (z :: zs) with
        | nil => exact absurd hc (insByDate_ne_nil x (z :: zs))
        | cons a t => rw [List.getLast?_cons_cons]
    | false =>
      rw [hstep, if_neg (by simp [hlt])]
      obtain ⟨m, hm⟩ := getLast?_cons_isSome y ys
      rw [List.getLast?_cons_cons, hm]
      have hym : Date.leb y.date m.date = true := h y (List.mem_cons_self y ys) m hm
      have hmx : Date.ltb m.date x.date = false := by
        cases hq : Date.ltb m.date x.date with
        | false => rfl
        | true =>
          have hcon := Date.ltb_of_leb_of_ltb hym hq
          rw [hlt] at hcon
          cases hcon
      simp only [pickNewer, hmx]
      simp

/-- Insertion preserves the last-is-max invariant. -/
theorem InvLast_insByDate (x : Record) (s : List Record) (h : InvLast s) :
    InvLast (insByDate x s) := by
  intro a ha m hm
  rw [getLast?_insByDate x s h] at hm
  rw [mem_insByDate s] at ha
  cases hsl : s.getLast? with
  | none =>
    have hs : s = [] := eq_nil_of_getLast?_eq_none hsl
    subst hs
    rw [hsl] at hm
    simp only [pickNewer] at hm
    cases hm
    rcases ha with rfl | ha
    · exact Date.leb_refl _
    · cases ha
  | some m0 =>
    rw [hsl] at hm
    simp only [pickNewer] at hm
    cases hq : Date.ltb m0.date x.date with
    | true =>
      rw [hq] at hm
      simp at hm
      subst hm
      rcases ha with rfl | ha
      · exact Date.leb_refl _
      · exact Date.leb_trans (h a ha m0 hsl) (Date.leb_of_ltb hq)
    | false =>
      rw [hq] at hm
      simp at hm
      subst hm
      rcases ha with rfl | ha
      · exact Date.leb_of_ltb_false hq
      · exact h a ha m0 hsl

/-- The stable ascending sort satisfies the last-is-max invariant. -/
theorem InvLast_sortAsc (l : List Record) : InvLast (sortAscByDate l) := by
  induction l with
  | nil =>
    intro y hy
    cases hy
  | cons x xs ih =>
    exact InvLast_insByDate x _ ih

/-- The last element of the stable ascending sort is the last-occurring
record attaining the maximum date. -/
theorem getLast?_sortAsc (l : List Record) :
    (sortAscByDate l).getLast? = lastMaxRecord l := by
  induction l with
  | nil => rfl
  | cons x xs ih =>
    show (insByDate x (sortAscByDate xs)).getLast? = _
    rw [getLast?_insByDate x _ (InvLast_sortAsc xs), ih]
    rfl

/-- The two tie-breaking folds commute: the running maximum of a list
extended with a last-positioned record equals the first-position fold of
the same records. -/
theorem pickNewer_pickOlder_comm (y x : Record) (L : Option Record) :
    pickNewer y (some (pickOlder x L)) = pickOlder x (some (pickNewer y L)) := by
  cases L with
  | none => simp only [pickOlder, pickNewer]
  | some m =>
    cases h1 : Date.ltb x.date m.date with
    | true =>
      cases h2 : Date.ltb m.date y.date with
      | true =>
        have h3 : Date.ltb x.date y.date = true := Date.ltb_trans h1 h2
        simp [pickNewer, pickOlder, h1, h2, h3]
      | false => simp [pickNewer, pickOlder, h1, h2]
    | false =>
      cases h2 : Date.ltb m.date y.date with
      | true => simp [pickNewer, pickOlder, h1, h2]
      | false =>
        have hmx : Date.leb m.date x.date = true := Date.leb_of_ltb_false h1
        have hym : Date.leb y.date m.date = true := Date.leb_of_ltb_false h2
        have h3 : Date.ltb x.date y.date = false :=
          Date.ltb_eq_false_of_leb (Date.leb_trans hym hmx)
        simp [pickNewer, pickOlder, h1, h2, h3]

/-- The last-occurring maximum of `l ++ [x]`: the appended record displaces
the running maximum unless strictly older. -/
theorem lastMaxRecord_append_singleton (l : List Record) (x : Record) :
    lastMaxRecord (l ++ [x]) = some (pickOlder x (lastMaxRecord l)) := by
  induction l with
  | nil => rfl
  | cons y ys ih =>
    show some (pickNewer y (lastMaxRecord (ys ++ [x]))) = _
    rw [ih, pickNewer_pickOlder_comm]
    rfl

/-- The last-occurring maximum of the reversed list is the first-occurring
maximum of the list. -/
theorem lastMaxRecord_reverse (l : List Record) :
    lastMaxRecord l.reverse = firstMaxRecord l := by
  induction l with
  | nil => rfl
  | cons x xs ih =>
    rw [List.reverse_cons, lastMaxRecord_append_singleton, ih]
    rfl

/-- `iloc[0]` of the stable date-descending sort (reverse, sort ascending,
reverse) is the first-occurring record attaining the maximum date. -/
theorem latestOverallDataPoint_eq_firstMax (ds : List Record) (z : String) :
    latestOverallDataPoint ds z = firstMaxRecord (dfZip ds z) := by
  unfold latestOverallDataPoint sortDescByDate
  rw [List.head?_reverse, getLast?_sortAsc, lastMaxRecord_reverse]

/-!  ## Lemmas on the counts dictionary (for claim C2) -/

/-- Bumping a key adds to that key's entry. -/
theorem dictGet_bumpKey_same (k : String) (n : Nat) (d : List (String × Nat)) :
    dictGet (bumpKey k n d) k = dictGet d k + n := by
  induction d with
  | nil => simp [bumpKey, dictGet, List.find?]
  | cons p t ih =>
    obtain ⟨k', m⟩ := p
    by_cases hk : k' = k
    · subst hk
      simp [bumpKey, dictGet, List.find?]
    · simp only [bumpKey, if_neg hk]
      simp only [dictGet, List.find?] at *
      have hbeq : (k' == k) = false := by
        simp [hk]
      rw [hbeq]
      simp only [hbeq] at *
      exact ih

/-- Bumping a key leaves the other keys unchanged. -/
theorem dictGet_bumpKey_other {k k' : String} (hk : ¬ k = k') (n : Nat)
    (d : List (String × Nat)) : dictGet (bumpKey k n d) k' = dictGet d k' := by
  induction d with
  | nil =>
    simp only [bumpKey, dictGet, List.find?]
    have hbeq : (k == k') = false := by
      simp [hk]
    rw [hbeq]
  | cons p t ih =>
    obtain ⟨k0, m⟩ := p
    by_cases h0 : k0 = k
    · subst h0
      have hbeq : (k0 == k') = false := by
        simp [hk]
      simp only [bumpKey, if_pos rfl, dictGet, List.find?, hbeq]
    · simp only [bumpKey, if_neg h0]
      simp only [dictGet, List.find?]
      cases hq : (k0 == k') with
      | true => rfl
      | false => exact ih

/-- The counts fold computes, at each key, the sum of the `count` fields of
the records carrying that key, added to the accumulator's entry. -/
theorem dictGet_countsFold (k : String) (l : List Record) :
    ∀ acc, dictGet (l.foldl (fun a r => bumpKey r.lawCat r.count a) acc) k =
      dictGet acc k + ((l.filter (fun r => r.lawCat == k)).map Record.count).sum := by
  induction l with
  | nil =>
    intro acc
    simp
  | cons r t ih =>
    intro acc
    simp only [List.foldl_cons]
    rw [ih]
    by_cases hr : r.lawCat = k
    · subst hr
      rw [dictGet_bumpKey_same]
      simp only [List.filter_cons]
      simp
      omega
    · rw [dictGet_bumpKey_other hr]
      simp only [List.filter_cons]
      have hbeq : (r.lawCat == k) = false := by
        simp [hr]
      rw [hbeq]
      simp

/-- `dict.get(cat, 0)` over the grouped counts is the plain sum of the
`count` fields of the latest-month records in that category — so every
category is reported, defaulting to 0. -/
theorem dictGet_crimeCounts (ds : List Record) (z k : String) :
    dictGet (crimeCountsLatestMonth ds z) k =
      (((dfLatestMonth ds z).filter (fun r => r.lawCat == k)).map Record.count).sum := by
  unfold crimeCountsLatestMonth
  rw [dictGet_countsFold]
  simp [dictGet, List.find?]

/-- A nonempty filterMap forces a nonempty source. -/
theorem ne_nil_of_filterMap_ne_nil {l : List Record} {f : Record → Option ℚ}
    (h : ¬ l.filterMap f = []) : ¬ l = [] := by
  intro hl
  subst hl
  exact h rfl

/-- The rent average of the code equals the spec's "mean of the non-null
rents, or null when none are present". -/
theorem avgRent_eq_listMean (ds : List Record) (z : String) :
    avgRentLatestMonth ds z =
      listMeanQ ((dfLatestMonth ds z).filterMap (fun r => r.medianRent)) := by
  unfold avgRentLatestMonth listMeanQ
  by_cases hv : (dfLatestMonth ds z).filterMap (fun r => r.medianRent) = []
  · rw [if_pos hv]
    rw [if_neg]
    intro hand
    exact hand.2 hv
  · rw [if_neg hv, if_pos ⟨ne_nil_of_filterMap_ne_nil hv, hv⟩]

/-- The danger-ratio average of the code equals the spec's "mean of the
non-null danger ratios, or null when none are present". -/
theorem avgDanger_eq_listMean (ds : List Record) (z : String) :
    avgDangerLatestMonth ds z =
      listMeanQ ((dfLatestMonth ds z).filterMap (fun r => r.dangerRatio)) := by
  unfold avgDangerLatestMonth listMeanQ
  by_cases hv : (dfLatestMonth ds z).filterMap (fun r => r.dangerRatio) = []
  · rw [if_pos hv]
    rw [if_neg]
    intro hand
    exact hand.2 hv
  · rw [if_neg hv, if_pos ⟨ne_nil_of_filterMap_ne_nil hv, hv⟩]

/-!  ## Monotonicity of the walking-time filter (for claim C4) -/

/-- Raising the budget can only grow one candidate's kept list. -/
theorem processCandidate_places_sublist {b1 b2 : ℚ} (h : b1 ≤ b2) (color : String)
    (dist : GeoLocation → DistReply) (c : CandidatePlace) :
    List.Sublist (processCandidate b1 color dist c).places
      (processCandidate b2 color dist c).places := by
  obtain ⟨name, oloc⟩ := c
  cases oloc with
  | none => exact List.nil_sublist _
  | some loc =>
    cases hd : dist loc with
    | networkError e =>
      simp only [processCandidate, hd]
      exact List.nil_sublist _
    | reply st elst em dur =>
      cases dur with
      | none =>
        simp only [processCandidate, hd]
        exact List.Sublist.refl _
      | some secs =>
        simp only [processCandidate, hd]
        by_cases hok : st = "OK" ∧ elst = "OK"
        · rw [if_pos hok, if_pos hok]
          by_cases hb : secs / 60 ≤ b1
          · rw [if_pos hb, if_pos (le_trans hb h)]
          · rw [if_neg hb]
            exact List.nil_sublist _
        · rw [if_neg hok, if_neg hok]

/-- Raising the budget can only grow the kept list of a candidate batch. -/
theorem foldr_places_sublist {b1 b2 : ℚ} (h : b1 ≤ b2) (color : String)
    (dist : GeoLocation → DistReply) (l : List CandidatePlace) :
    List.Sublist ((l.map (processCandidate b1 color dist)).foldr combineCat emptyCat).places
      ((l.map (processCandidate b2 color dist)).foldr combineCat emptyCat).places := by
  induction l with
  | nil => exact List.Sublist.refl _
  | cons c cs ih =>
    show List.Sublist
      ((processCandidate b1 color dist c).places ++
        ((cs.map (processCandidate b1 color dist)).foldr combineCat emptyCat).places) _
    exact List.Sublist.append (processCandidate_places_sublist h color dist c) ih

/-- Raising the budget can only grow one category's reachable places. -/
theorem processCategory_places_sublist {b1 b2 : ℚ} (h : b1 ≤ b2) (t : String)
    (pr : PlacesReply) (dist : GeoLocation → DistReply) :
    List.Sublist (processCategory b1 t pr dist).places
      (processCategory b2 t pr dist).places := by
  cases pr with
  | networkError e => exact List.Sublist.refl _
  | reply status em results =>
    simp only [processCategory]
    by_cases hc : status = "OK" ∧ ¬ results = []
    · rw [if_pos hc, if_pos hc]
      exact foldr_places_sublist h (colorOf t) dist results
    · rw [if_neg hc, if_neg hc]

/-- Raising the budget can only grow the marker list built by the category
loop, whatever states the two folds start from. -/
theorem foldl_markers_sublist {b1 b2 : ℚ} (h : b1 ≤ b2) (env : MapEnv)
    (types : List String) :
    ∀ s1 s2 : SPState, List.Sublist s1.placeMarkers s2.placeMarkers →
      List.Sublist (types.foldl (stepType b1 env) s1).placeMarkers
        (types.foldl (stepType b2 env) s2).placeMarkers := by
  induction types with
  | nil =>
    intro s1 s2 hs
    exact hs
  | cons t ts ih =>
    intro s1 s2 hs
    simp only [List.foldl_cons]
    apply ih
    unfold stepType
    by_cases hk : isKnownType t = true
    · rw [if_pos hk, if_pos hk]
      exact List.Sublist.append hs (processCategory_places_sublist h t (env.places t) env.dist)
    · rw [if_neg hk, if_neg hk]
      exact hs

/-!  ## Lemmas on the per-type count dictionary (for claim C10) -/

/-- `addCount` never changes the key set. -/
theorem dictKeys_addCount (k : String) (n : Nat) (d : List (String × Nat)) :
    dictKeys (addCount k n d) = dictKeys d := by
  induction d with
  | nil => rfl
  | cons p t ih =>
    obtain ⟨k', m⟩ := p
    by_cases hk : k' = k
    · simp [addCount, hk, dictKeys]
    · simp only [addCount, if_neg hk, dictKeys, List.map_cons]
      simp only [dictKeys] at ih
      rw [ih]

/-- `addCount` at a key leaves the other keys' values unchanged. -/
theorem dictGet_addCount_other {k k' : String} (h : ¬ k = k') (n : Nat)
    (d : List (String × Nat)) : dictGet (addCount k n d) k' = dictGet d k' := by
  induction d with
  | nil => rfl
  | cons p t ih =>
    obtain ⟨k0, m⟩ := p
    by_cases h0 : k0 = k
    · subst h0
      have hbeq : (k0 == k') = false := by
        simp [h]
      simp only [addCount, if_pos rfl, dictGet, List.find?, hbeq]
    · simp only [addCount, if_neg h0, dictGet, List.find?]
      cases hq : (k0 == k') with
      | true => rfl
      | false => exact ih

/-- Key membership after one dict-comprehension insertion. -/
theorem mem_dictKeys_insertKey (t k : String) (d : List (String × Nat)) :
    t ∈ dictKeys (insertKey k d) ↔ t ∈ dictKeys d ∨ t = k := by
  unfold insertKey
  by_cases hin : d.any (fun p => p.1 == k) = true
  · rw [if_pos hin]
    constructor
    · exact Or.inl
    · rintro (hd | rfl)
      · exact hd
      · obtain ⟨p, hp, hpk⟩ := List.any_eq_true.mp hin
        rw [beq_iff_eq] at hpk
        subst hpk
        exact List.mem_map_of_mem (fun q => q.1) hp
  · rw [if_neg hin]
    simp [dictKeys]

/-- Every requested type is a key of the fold of insertions. -/
theorem mem_dictKeys_initFold (t : String) (l : List String) :
    ∀ acc, t ∈ dictKeys acc ∨ t ∈ l →
      t ∈ dictKeys (l.foldl (fun d k => insertKey k d) acc) := by
  induction l with
  | nil =>
    intro acc hacc
    rcases hacc with h | h
    · exact h
    · cases h
  | cons k ks ih =>
    intro acc hacc
    simp only [List.foldl_cons]
    apply ih
    rcases hacc with h | h
    · exact Or.inl ((mem_dictKeys_insertKey t k acc).mpr (Or.inl h))
    · rcases List.mem_cons.mp h with rfl | hks
      · exact Or.inl ((mem_dictKeys_insertKey t t acc).mpr (Or.inr rfl))
      · exact Or.inr hks

/-- Every requested type is a key of the initial count dictionary. -/
theorem mem_dictKeys_initCounts {t : String} {types : List String} (h : t ∈ types) :
    t ∈ dictKeys (initCounts types) :=
  mem_dictKeys_initFold t types [] (Or.inr h)

/-- When every value in the dictionary is 0, every lookup yields 0. -/
theorem dictGet_zero_of_all_zero {d : List (String × Nat)}
    (h : ∀ p ∈ d, p.2 = 0) (t : String) : dictGet d t = 0 := by
  unfold dictGet
  cases hf : d.find? (fun p => p.1 == t) with
  | none => rfl
  | some p => exact h p (List.mem_of_find?_eq_some hf)

/-- The insertion fold keeps every value at 0. -/
theorem all_zero_initFold (l : List String) :
    ∀ acc, (∀ p ∈ acc, p.2 = 0) →
      ∀ p ∈ l.foldl (fun d k => insertKey k d) acc, p.2 = 0 := by
  induction l with
  | nil =>
    intro acc hacc
    exact hacc
  | cons k ks ih =>
    intro acc hacc
    simp only [List.foldl_cons]
    apply ih
    intro p hp
    unfold insertKey at hp
    by_cases hin : acc.any (fun q => q.1 == k) = true
    · rw [if_pos hin] at hp
      exact hacc p hp
    · rw [if_neg hin] at hp
      rcases List.mem_append.mp hp with h1 | h1
      · exact hacc p h1
      · rcases List.mem_singleton.mp h1 with rfl
        rfl

/-- The initial count dictionary maps every key to 0. -/
theorem dictGet_initCounts (types : List String) (t : String) :
    dictGet (initCounts types) t = 0 :=
  dictGet_zero_of_all_zero
    (all_zero_initFold types []
      (by
        intro p hp
        cases hp))
    t

/-- The lookups after one loop iteration: the processed type is appended
exactly when it has a colour. -/
theorem stepType_lookups (b : ℚ) (env : MapEnv) (s : SPState) (t : String) :
    (stepType b env s t).lookups =
      if isKnownType t then s.lookups ++ [t] else s.lookups := by
  unfold stepType
  split <;> rfl

/-- The counts after one loop iteration: the processed type's entry is
bumped exactly when it has a colour. -/
theorem stepType_counts (b : ℚ) (env : MapEnv) (s : SPState) (t : String) :
    (stepType b env s t).counts =
      if isKnownType t then
        addCount t (processCategory b t (env.places t) env.dist).count s.counts
      else s.counts := by
  unfold stepType
  split <;> rfl

/-- The category loop never changes the key set of the count dictionary. -/
theorem foldl_counts_keys (b : ℚ) (env : MapEnv) (types : List String) :
    ∀ s : SPState,
      dictKeys ((types.foldl (stepType b env) s).counts) = dictKeys s.counts := by
  induction types with
  | nil =>
    intro s
    rfl
  | cons t ts ih =>
    intro s
    simp only [List.foldl_cons]
    rw [ih, stepType_counts]
    by_cases hk : isKnownType t = true
    · rw [if_pos hk, dictKeys_addCount]
    · rw [if_neg hk]

/-- The loop never issues a lookup for, nor changes the count entry of, a
type with no colour. -/
theorem foldl_unknown_invariant (b : ℚ) (env : MapEnv) {t : String}
    (hk : isKnownType t = false) (types : List String) :
    ∀ s : SPState, ¬ t ∈ s.lookups →
      ¬ t ∈ (types.foldl (stepType b env) s).lookups ∧
      dictGet ((types.foldl (stepType b env) s).counts) t = dictGet s.counts t := by
  induction types with
  | nil =>
    intro s hs
    exact ⟨hs, rfl⟩
  | cons t' ts ih =>
    intro s hs
    simp only [List.foldl_cons]
    by_cases hk' : isKnownType t' = true
    · have hne : ¬ t' = t := by
        intro he
        rw [he, hk] at hk'
        cases hk'
      have hlk : ¬ t ∈ (stepType b env s t').lookups := by
        rw [stepType_lookups, if_pos hk']
        intro hmem
        rcases List.mem_append.mp hmem with hmem | hmem
        · exact hs hmem
        · exact hne (List.mem_singleton.mp hmem).symm
      obtain ⟨h1, h2⟩ := ih (stepType b env s t') hlk
      refine ⟨h1, ?_⟩
      rw [h2, stepType_counts, if_pos hk', dictGet_addCount_other hne]
    · have hlk : ¬ t ∈ (stepType b env s t').lookups := by
        rw [stepType_lookups, if_neg hk']
        exact hs
      obtain ⟨h1, h2⟩ := ih (stepType b env s t') hlk
      refine ⟨h1, ?_⟩
      rw [h2, stepType_counts, if_neg hk']

/-!  ## String helpers (for claims C7 and C9) -/

/-- The third character of an appended string is that of its first part,
when the first part is long enough. -/
theorem data_getElem2_append (p q : String) (c : Char) (hp : p.data[2]? = some c)
    (hl : 2 < p.data.length) : (p ++ q).data[2]? = some c := by
  have hd : (p ++ q).data = p.data ++ q.data := by
    cases p
    cases q
    rfl
  rw [hd, List.getElem?_append_left hl, hp]

/-- The third character of a geocode status-failure message is always G. -/
theorem geoFailMsg_getElem2 (zip status em : String) :
    (geoFailMsg zip status em).data[2]? = some 'G' :=
  data_getElem2_append _ _ _ (by decide) (by decide)

/-- The third character of a geocode network-error message is always N. -/
theorem geoNetErrMsg_getElem2 (zip e : String) :
    (geoNetErrMsg zip e).data[2]? = some 'N' :=
  data_getElem2_append _ _ _ (by decide) (by decide)

/-- A geocode status-failure message (also produced by an OK reply with no
results) never coincides with a geocode network-error message: the two
families of messages differ at their third character. -/
theorem geoFailMsg_ne_geoNetErrMsg (zip status em e : String) :
    ¬ geoFailMsg zip status em = geoNetErrMsg zip e := by
  intro h
  have h2 : (geoFailMsg zip status em).data[2]? = (geoNetErrMsg zip e).data[2]? := by
    rw [h]
  rw [geoFailMsg_getElem2, geoNetErrMsg_getElem2] at h2
  cases h2

/-- A nonempty selection has a maximum date. -/
theorem maxDate_of_ne_nil {l : List Record} (h : ¬ l = []) :
    ∃ d, maxDate l = some d := by
  cases l with
  | nil => exact absurd rfl h
  | cons r rs => exact ⟨_, rfl⟩

/-!  ## Evaluations of the sample environment -/

/-- With a 5-minute budget only Alpha Market (4 min) is reachable in the
sample environment. -/
theorem envOk_markers_5 : (searchPlaces 5 ["supermarket"] envOk).placeMarkers =
    [⟨"Alpha Market", ⟨407, -739⟩, 4, "blue"⟩] := by
  norm_num [searchPlaces, stepType, initCounts, insertKey, isKnownType, PLACE_COLORS,
    envOk, placesSample, processCategory, candA, candB, candC, distSample,
    processCandidate, combineCat, emptyCat, colorOf]
  split
  · rename_i h
    exact absurd h (List.cons_ne_nil _ _)
  · rfl

/-- With the sample environment, processing the supermarket category keeps
Alpha (4 min) and Charlie (7 min), drops Bravo whose distance request hit a
network error, prints one warning for Bravo, and appends nothing to the
error list. -/
theorem processCategory_sample :
    processCategory 15 "supermarket" (.reply "OK" "" [candA, candB, candC]) distSample =
      ⟨[⟨"Alpha Market", ⟨407, -739⟩, 4, "blue"⟩,
        ⟨"Charlie Market", ⟨409, -741⟩, 7, "blue"⟩], 2,
       [distNetMsg "Bravo Market" "timeout"], [],
       [⟨407, -739⟩, ⟨408, -740⟩, ⟨409, -741⟩]⟩ := by
  norm_num [processCategory, candA, candB, candC, distSample, processCandidate,
    combineCat, emptyCat, colorOf, PLACE_COLORS]
  intro h
  exact absurd h (List.cons_ne_nil _ _)



/-- When no cell raises, the column parse succeeds row by row. -/
theorem applyZipParse_ok {rows : List RawRow}
    (h : ∀ r ∈ rows, ¬ r.zipCell = .strBad) :
    applyZipParse rows =
      some (rows.map (fun r => mkRecord r ((parseZipCell r.zipCell).getD []))) := by
  induction rows with
  | nil => rfl
  | cons r rs ih =>
    have hr : ¬ r.zipCell = ZipCell.strBad := h r (List.mem_cons_self r rs)
    have htail := ih (fun a ha => h a (List.mem_cons_of_mem r ha))
    cases hc : r.zipCell with
    | strBad => exact absurd hc hr
    | nonString =>
      simp only [applyZipParse, hc, parseZipCell, htail, List.map_cons]
      rfl
    | strList zs =>
      simp only [applyZipParse, hc, parseZipCell, htail, List.map_cons]
      rfl

/-- One raising cell aborts the whole column parse. -/
theorem applyZipParse_bad {rows : List RawRow}
    (h : ∃ r ∈ rows, r.zipCell = .strBad) :
    applyZipParse rows = none := by
  induction rows with
  | nil =>
    obtain ⟨r, hr, _⟩ := h
    cases hr
  | cons r rs ih =>
    obtain ⟨r0, hr0, hbad⟩ := h
    rcases List.mem_cons.mp hr0 with rfl | hmem
    · simp only [applyZipParse, hbad, parseZipCell]
    · have htail : applyZipParse rs = none := ih ⟨r0, hmem, hbad⟩
      simp only [applyZipParse, htail]
      cases parseZipCell r.zipCell with
      | none => rfl
      | some zs => rfl

/-- A failing distance-matrix reply — a network error, a non-OK top
status, or a non-OK element status — drops its candidate from the kept
set, prints exactly one console warning, and appends nothing to the error
list, after the one distance request was issued. -/
theorem processCandidate_fails {dist : GeoLocation → DistReply} {l : GeoLocation}
    (hf : distFails (dist l)) (budget : ℚ) (color : String) (n : String) :
    (processCandidate budget color dist ⟨n, some l⟩).places = [] ∧
    (processCandidate budget color dist ⟨n, some l⟩).count = 0 ∧
    (processCandidate budget color dist ⟨n, some l⟩).warnings.length = 1 ∧
    (processCandidate budget color dist ⟨n, some l⟩).errors = [] ∧
    (processCandidate budget color dist ⟨n, some l⟩).distCalls = [l] := by
  cases hd : dist l with
  | networkError e =>
    simp [processCandidate, hd]
  | reply st elst em dur =>
    rw [hd] at hf
    have hf2 : ¬ st = "OK" ∨ ¬ elst = "OK" := hf
    rcases hf2 with hst | hel
    · cases dur with
      | some secs => simp [processCandidate, hd, hst]
      | none => simp [processCandidate, hd, hst]
    · by_cases hst : st = "OK"
      · subst hst
        cases dur with
        | some secs => simp [processCandidate, hd, hel]
        | none => simp [processCandidate, hd, hel]
      · cases dur with
        | some secs => simp [processCandidate, hd, hst]
        | none => simp [processCandidate, hd, hst]

/-!  ## Claim theorems -/

/-- C1: the danger-ratio derivation is exactly `weightedCrime = 3*f + 2*m +
1*v` and `dangerRatio = weightedCrime / rent` when the rent is present and
positive, null/undefined otherwise; it is available as a standalone
function of `(f, m, v, rent)`.  (The derivation is modelled from the spec:
the dataset ships the column precomputed, and only the layout text of
`app.py` lines 212-218 states the formula.) -/
theorem c1_danger_ratio_derivation (f m v : Nat) (r : ℚ) :
    weightedCrime f m v = 3 * f + 2 * m + 1 * v ∧
    (0 < r → dangerRatio f m v (some r) = some ((weightedCrime f m v : ℚ) / r)) ∧
    (r ≤ 0 → dangerRatio f m v (some r) = none) ∧
    dangerRatio f m v none = none := by
  refine ⟨rfl, fun hr => ?_, fun hr => ?_, rfl⟩
  · show (if 0 < r then some ((weightedCrime f m v : ℚ) / r) else none) = _
    rw [if_pos hr]
  · show (if 0 < r then some ((weightedCrime f m v : ℚ) / r) else none) = _
    rw [if_neg (not_lt.mpr hr)]

/-- Witness for C1 at `(f, m, v, rent) = (2, 1, 0, 3000)`. -/
theorem c1_danger_ratio_derivation_witness :
    (0 : ℚ) < 3000 ∧
    dangerRatio 2 1 0 (some 3000) = some ((weightedCrime 2 1 0 : ℚ) / 3000) :=
  ⟨by norm_num, (c1_danger_ratio_derivation 2 1 0 3000).2.1 (by norm_num)⟩

/-- C2: for every dataset and ZIP with a matching record, the summary takes
the matching rows, truncates their maximum date to a month start, restricts
to rows dated at or after it, and reports the mean of the non-null rents,
the mean of the non-null danger ratios, and the per-category count sums
with FELONY, MISDEMEANOR and VIOLATION all present, defaulting to 0; on the
spec §8 scenario dataset this gives latest month 2024-06-01, counts
FELONY 1, MISDEMEANOR 0, VIOLATION 1, average rent 3100, and danger ratio
(3*1 + 2*0 + 1*1) / 3100. -/
theorem c2_metrics_aggregator :
    (∀ (ds : List Record) (z : String), ¬ dfZip ds z = [] →
      (∃ d, maxDate (dfZip ds z) = some d ∧
        latestMonthStart ds z = some (Date.monthStart d) ∧
        dfLatestMonth ds z =
          (dfZip ds z).filter (fun r => Date.leb (Date.monthStart d) r.date)) ∧
      avgRentLatestMonth ds z =
        listMeanQ ((dfLatestMonth ds z).filterMap (fun r => r.medianRent)) ∧
      avgDangerLatestMonth ds z =
        listMeanQ ((dfLatestMonth ds z).filterMap (fun r => r.dangerRatio)) ∧
      (∀ c, dictGet (crimeCountsLatestMonth ds z) c =
        (((dfLatestMonth ds z).filter (fun r => r.lawCat == c)).map Record.count).sum)) ∧
    latestMonthStart scenDS "10001" = some ⟨2024, 6, 1⟩ ∧
    dictGet (crimeCountsLatestMonth scenDS "10001") "FELONY" = 1 ∧
    dictGet (crimeCountsLatestMonth scenDS "10001") "MISDEMEANOR" = 0 ∧
    dictGet (crimeCountsLatestMonth scenDS "10001") "VIOLATION" = 1 ∧
    avgRentLatestMonth scenDS "10001" = some 3100 ∧
    avgDangerLatestMonth scenDS "10001" = some ((3 * 1 + 2 * 0 + 1 * 1 : ℚ) / 3100) := by
  refine ⟨?_, by decide, by decide, by decide, by decide, ?_, ?_⟩
  · intro ds z h
    obtain ⟨d, hd⟩ := maxDate_of_ne_nil h
    refine ⟨⟨d, hd, ?_, ?_⟩, avgRent_eq_listMean ds z, avgDanger_eq_listMean ds z,
      fun c => dictGet_crimeCounts ds z c⟩
    · unfold latestMonthStart
      rw [hd]
      rfl
    · simp [dfLatestMonth, latestMonthStart, hd]
  · have h : dfLatestMonth scenDS "10001" =
        [scenJun "FELONY" 1, scenJun "MISDEMEANOR" 0, scenJun "VIOLATION" 1] := rfl
    simp [avgRentLatestMonth, h, scenJun]
    norm_num
  · have h : dfLatestMonth scenDS "10001" =
        [scenJun "FELONY" 1, scenJun "MISDEMEANOR" 0, scenJun "VIOLATION" 1] := rfl
    simp [avgDangerLatestMonth, h, scenJun]
    norm_num

/-- Witness for C2 at the spec §8 scenario dataset and ZIP 10001. -/
theorem c2_metrics_aggregator_witness :
    ¬ dfZip scenDS "10001" = [] ∧
    avgRentLatestMonth scenDS "10001" =
      listMeanQ ((dfLatestMonth scenDS "10001").filterMap (fun r => r.medianRent)) :=
  ⟨by decide, (c2_metrics_aggregator.1 scenDS "10001" (by decide)).2.1⟩

/-- C3: for every dataset and ZIP, the precinctArea reported in the ZIP
summary is the precinctArea of the record with the maximum date among the
matching records, and when several records share that maximum date the
record occurring first in the original dataset order is chosen — pandas'
descending sort is stable (reverse before the ascending argsort, reverse
after), so `iloc[0]` is the first-occurring maximum.  On the two-record
tie dataset the first record's "Area A" is reported. -/
theorem c3_precinct_area_first_occurrence :
    (∀ (ds : List Record) (z : String),
      reportedPrecinctArea ds z =
        (firstMaxRecord (dfZip ds z)).map (fun r => r.precinctArea)) ∧
    reportedPrecinctArea tieDS "10001" = some "Area A" := by
  constructor
  · intro ds z
    unfold reportedPrecinctArea
    rw [latestOverallDataPoint_eq_firstMax]
  · decide

/-- C4: the reachability filter is monotonic in the travel budget: with the
candidate places and their travel-time replies fixed, every place reachable
under budget `b1 ≤ b2` is also reachable under `b2`. -/
theorem c4_reachability_monotone (b1 b2 : ℚ) (h : b1 ≤ b2) (types : List String)
    (env : MapEnv) (p : ReachedPlace)
    (hp : p ∈ (searchPlaces b1 types env).placeMarkers) :
    p ∈ (searchPlaces b2 types env).placeMarkers := by
  refine List.Sublist.subset ?_ hp
  unfold searchPlaces
  exact foldl_markers_sublist h env types _ _ (List.Sublist.refl _)

/-- Witness for C4: Alpha Market, reachable in 4 minutes, stays reachable
when the budget grows from 5 to 15 minutes. -/
theorem c4_reachability_monotone_witness :
    (5 : ℚ) ≤ 15 ∧
    (⟨"Alpha Market", ⟨407, -739⟩, 4, "blue"⟩ : ReachedPlace) ∈
      (searchPlaces 5 ["supermarket"] envOk).placeMarkers ∧
    (⟨"Alpha Market", ⟨407, -739⟩, 4, "blue"⟩ : ReachedPlace) ∈
      (searchPlaces 15 ["supermarket"] envOk).placeMarkers :=
  ⟨by norm_num, by simp [envOk_markers_5],
   c4_reachability_monotone 5 15 (by norm_num) ["supermarket"] envOk _
     (by simp [envOk_markers_5])⟩

/-- C5: a ZERO_RESULTS nearby-places reply yields, for that category, an
empty place list and a count of 0, and records nothing in the collected
error list, whatever the requested budget, the reply payload, and the
travel-time replies. -/
theorem c5_zero_results_soft (budget : ℚ) (t em : String)
    (results : List CandidatePlace) (dist : GeoLocation → DistReply) :
    (processCategory budget t (.reply "ZERO_RESULTS" em results) dist).places = [] ∧
    (processCategory budget t (.reply "ZERO_RESULTS" em results) dist).count = 0 ∧
    (processCategory budget t (.reply "ZERO_RESULTS" em results) dist).errors = [] := by
  have h : processCategory budget t (.reply "ZERO_RESULTS" em results) dist =
      ⟨[], 0, [zeroResultsMsg t], [], []⟩ := by
    simp [processCategory]
  rw [h]
  exact ⟨rfl, rfl, rfl⟩

/-- C6 (counterexample): with the sample replies, the travel-time request
fails for one of three supermarket candidates; the other two (4 and 7
minutes, within the 15-minute budget) still appear, but the collected error
list surfaced to the user stays empty — not exactly one warning. -/
theorem c6_travel_failure_counterexample :
    (processCategory 15 "supermarket" (.reply "OK" "" [candA, candB, candC])
        distSample).places =
      [⟨"Alpha Market", ⟨407, -739⟩, 4, "blue"⟩,
       ⟨"Charlie Market", ⟨409, -741⟩, 7, "blue"⟩] ∧
    (processCategory 15 "supermarket" (.reply "OK" "" [candA, candB, candC])
        distSample).errors = [] ∧
    ¬ (processCategory 15 "supermarket" (.reply "OK" "" [candA, candB, candC])
        distSample).errors.length = 1 := by
  rw [processCategory_sample]
  exact ⟨rfl, rfl, by decide⟩

/-- C6 (amended): when the travel-time request fails — a network error, a
non-OK top status, or a non-OK element status — for exactly one of three
candidates, the other two, if within budget, still appear in the reachable
set; the failure is non-fatal and produces exactly one console warning for
the failed candidate, but nothing is recorded in the collected error list
surfaced to the user. -/
theorem c6_travel_failure_amended (budget : ℚ) (t em em1 em3 : String)
    (n1 n2 n3 : String) (l1 l2 l3 : GeoLocation) (v1 v3 : ℚ)
    (dist : GeoLocation → DistReply)
    (h1 : dist l1 = .reply "OK" "OK" em1 (some v1)) (hb1 : v1 / 60 ≤ budget)
    (hf : distFails (dist l2))
    (h3 : dist l3 = .reply "OK" "OK" em3 (some v3)) (hb3 : v3 / 60 ≤ budget) :
    (processCategory budget t
        (.reply "OK" em [⟨n1, some l1⟩, ⟨n2, some l2⟩, ⟨n3, some l3⟩]) dist).places =
      [⟨n1, l1, v1 / 60, colorOf t⟩, ⟨n3, l3, v3 / 60, colorOf t⟩] ∧
    (processCategory budget t
        (.reply "OK" em [⟨n1, some l1⟩, ⟨n2, some l2⟩, ⟨n3, some l3⟩]) dist).count = 2 ∧
    (processCategory budget t
        (.reply "OK" em [⟨n1, some l1⟩, ⟨n2, some l2⟩, ⟨n3, some l3⟩])
        dist).warnings.length = 1 ∧
    (processCategory budget t
        (.reply "OK" em [⟨n1, some l1⟩, ⟨n2, some l2⟩, ⟨n3, some l3⟩]) dist).errors = [] := by
  obtain ⟨hp2, hc2, hw2, he2, hd2⟩ := processCandidate_fails hf budget (colorOf t) n2
  have e1 : processCandidate budget (colorOf t) dist ⟨n1, some l1⟩ =
      ⟨[⟨n1, l1, v1 / 60, colorOf t⟩], 1, [], [], [l1]⟩ := by
    simp [processCandidate, h1, hb1]
  have e3 : processCandidate budget (colorOf t) dist ⟨n3, some l3⟩ =
      ⟨[⟨n3, l3, v3 / 60, colorOf t⟩], 1, [], [], [l3]⟩ := by
    simp [processCandidate, h3, hb3]
  simp only [processCategory]
  rw [if_pos (by simp)]
  simp only [List.map_cons, List.map_nil, List.foldr_cons, List.foldr_nil]
  rw [e1, e3]
  simp [combineCat, emptyCat, hp2, hc2, hw2, he2]

/-- Witness for C6 (amended) at the sample replies: Bravo Market's request
hits a network error (one of the covered failure modes), Alpha and Charlie
stay reachable, one console warning, no surfaced error. -/
theorem c6_travel_failure_amended_witness :
    distSample ⟨407, -739⟩ = .reply "OK" "OK" "" (some 240) ∧
    (240 : ℚ) / 60 ≤ 15 ∧
    distFails (distSample ⟨408, -740⟩) ∧
    distSample ⟨409, -741⟩ = .reply "OK" "OK" "" (some 420) ∧
    (420 : ℚ) / 60 ≤ 15 ∧
    (processCategory 15 "supermarket"
        (.reply "OK" ""
          [⟨"Alpha Market", some ⟨407, -739⟩⟩, ⟨"Bravo Market", some ⟨408, -740⟩⟩,
           ⟨"Charlie Market", some ⟨409, -741⟩⟩]) distSample).places =
      [⟨"Alpha Market", ⟨407, -739⟩, 240 / 60, colorOf "supermarket"⟩,
       ⟨"Charlie Market", ⟨409, -741⟩, 420 / 60, colorOf "supermarket"⟩] ∧
    (processCategory 15 "supermarket"
        (.reply "OK" ""
          [⟨"Alpha Market", some ⟨407, -739⟩⟩, ⟨"Bravo Market", some ⟨408, -740⟩⟩,
           ⟨"Charlie Market", some ⟨409, -741⟩⟩]) distSample).warnings.length = 1 ∧
    (processCategory 15 "supermarket"
        (.reply "OK" ""
          [⟨"Alpha Market", some ⟨407, -739⟩⟩, ⟨"Bravo Market", some ⟨408, -740⟩⟩,
           ⟨"Charlie Market", some ⟨409, -741⟩⟩]) distSample).errors = [] := by
  have h1 : distSample ⟨407, -739⟩ = DistReply.reply "OK" "OK" "" (some 240) := rfl
  have hb1 : (240 : ℚ) / 60 ≤ 15 := by norm_num
  have hf : distFails (distSample ⟨408, -740⟩) := True.intro
  have h3 : distSample ⟨409, -741⟩ = DistReply.reply "OK" "OK" "" (some 420) := rfl
  have hb3 : (420 : ℚ) / 60 ≤ 15 := by norm_num
  have hmain := c6_travel_failure_amended 15 "supermarket" "" "" "" "Alpha Market"
    "Bravo Market" "Charlie Market" ⟨407, -739⟩ ⟨408, -740⟩ ⟨409, -741⟩ 240 420
    distSample h1 hb1 hf h3 hb3
  exact ⟨h1, hb1, hf, h3, hb3, hmain.1, hmain.2.2.1, hmain.2.2.2⟩

/-- C7: a geocoding failure — non-OK status, OK with no results, or a
network error — aborts the whole search immediately: the callback returns
an empty marker set with the failure message, leaves the map centre and
zoom unchanged, and issues no nearby-place and no travel-time request; and
the message for a status failure (including a no-results geocode) always
differs from the message for a transport error. -/
theorem c7_geocode_failure_aborts :
    (∀ (n : Nat) (zip : String) (budget : ℚ) (types : List String) (env : MapEnv)
        (ds : List Record) (cc : ℚ × ℚ) (cz : Nat) (msg : String),
      ¬ n = 0 → ¬ zip = "" → ¬ ds = [] → geocodeStep zip env.geo = .fail msg →
      updateMap n zip budget types env ds cc cz =
        .out ⟨[], .text msg, cc, cz, [], [], [msg]⟩) ∧
    (∀ zip e, geocodeStep zip (.networkError e) = .fail (geoNetErrMsg zip e)) ∧
    (∀ zip status em results, ¬ status = "OK" →
      geocodeStep zip (.reply status em results) = .fail (geoFailMsg zip status em)) ∧
    (∀ zip em, geocodeStep zip (.reply "OK" em []) = .fail (geoFailMsg zip "OK" em)) ∧
    (∀ zip status em e, ¬ geoFailMsg zip status em = geoNetErrMsg zip e) := by
  refine ⟨?_, fun zip e => rfl, ?_, fun zip em => rfl, geoFailMsg_ne_geoNetErrMsg⟩
  · intro n zip budget types env ds cc cz msg hn hz hds hg
    unfold updateMap
    rw [if_neg (not_or.mpr ⟨hn, hz⟩), if_neg hds, hg]
  · intro zip status em results hst
    cases results with
    | nil => rfl
    | cons loc rest =>
      show (if status = "OK" then GeocodeOutcome.ok loc
            else .fail (geoFailMsg zip status em)) = _
      rw [if_neg hst]

/-- Witness for C7: a geocode network error on the sample dataset aborts
the search with the network-error message and no downstream request. -/
theorem c7_geocode_failure_aborts_witness :
    ¬ (1 : Nat) = 0 ∧ ¬ ("10001" : String) = "" ∧ ¬ scenDS = [] ∧
    geocodeStep "10001" envGeoNet.geo = .fail (geoNetErrMsg "10001" "boom") ∧
    updateMap 1 "10001" 15 ["supermarket"] envGeoNet scenDS (0, 0) 12 =
      .out ⟨[], .text (geoNetErrMsg "10001" "boom"), (0, 0), 12, [], [],
            [geoNetErrMsg "10001" "boom"]⟩ :=
  ⟨by decide, by decide, by decide, rfl,
   c7_geocode_failure_aborts.1 1 "10001" 15 ["supermarket"] envGeoNet scenDS (0, 0) 12
     (geoNetErrMsg "10001" "boom") (by decide) (by decide) (by decide) rfl⟩

/-- C9: a geocode reply with status OK but an empty results list is treated
exactly like a geocoding failure: the callback aborts, returns an empty
marker set with the failure message, leaves the map centre and zoom
unchanged, and issues no nearby-place and no travel-time request. -/
theorem c9_geocode_ok_empty_results (n : Nat) (zip : String) (budget : ℚ)
    (types : List String) (env : MapEnv) (ds : List Record) (cc : ℚ × ℚ) (cz : Nat)
    (em : String) (hn : ¬ n = 0) (hz : ¬ zip = "") (hds : ¬ ds = [])
    (hgeo : env.geo = .reply "OK" em []) :
    updateMap n zip budget types env ds cc cz =
      .out ⟨[], .text (geoFailMsg zip "OK" em), cc, cz, [], [],
            [geoFailMsg zip "OK" em]⟩ := by
  unfold updateMap
  rw [if_neg (not_or.mpr ⟨hn, hz⟩), if_neg hds, hgeo]
  rfl

/-- Witness for C9: an OK-with-no-results geocode reply aborts the search
with the status-failure message, the map unchanged. -/
theorem c9_geocode_ok_empty_results_witness :
    ¬ (1 : Nat) = 0 ∧ ¬ ("10001" : String) = "" ∧ ¬ scenDS = [] ∧
    envGeoEmpty.geo = .reply "OK" "" [] ∧
    updateMap 1 "10001" 15 ["supermarket"] envGeoEmpty scenDS (0, 0) 12 =
      .out ⟨[], .text (geoFailMsg "10001" "OK" ""), (0, 0), 12, [], [],
            [geoFailMsg "10001" "OK" ""]⟩ :=
  ⟨by decide, by decide, by decide, rfl,
   c9_geocode_ok_empty_results 1 "10001" 15 ["supermarket"] envGeoEmpty scenDS (0, 0) 12
     "" (by decide) (by decide) (by decide) rfl⟩

/-- C8 (counterexample): a dataset of one well-formed row followed by a row
whose ZIP-codes string cannot be evaluated does not load as "first row kept,
second row with an empty list": the exception escapes the column parse and
the whole load falls back to the empty dataset. -/
theorem c8_eval_crash_counterexample :
    loadData [⟨.strList ["10001"], ⟨2024, 1, 1⟩, "FELONY", 1, "Area A", none, none⟩,
              ⟨.strBad, ⟨2024, 2, 1⟩, "FELONY", 2, "Area B", none, none⟩] = [] ∧
    ¬ loadData [⟨.strList ["10001"], ⟨2024, 1, 1⟩, "FELONY", 1, "Area A", none, none⟩,
                ⟨.strBad, ⟨2024, 2, 1⟩, "FELONY", 2, "Area B", none, none⟩] =
      [mkRecord ⟨.strList ["10001"], ⟨2024, 1, 1⟩, "FELONY", 1, "Area A", none, none⟩
         ["10001"],
       mkRecord ⟨.strBad, ⟨2024, 2, 1⟩, "FELONY", 2, "Area B", none, none⟩ []] := by
  exact ⟨rfl, by decide⟩

/-- C8 (amended): a non-string ZIP-codes cell (NaN etc.) degrades to an
empty list for that row while the rest of the dataset loads normally, and
ingestion never crashes the process; but a string cell whose evaluation
raises aborts the whole column parse, and the surrounding handler replaces
the entire dataset with the empty one. -/
theorem c8_ingestion_amended (rows : List RawRow) :
    ((∀ r ∈ rows, ¬ r.zipCell = .strBad) →
      loadData rows = rows.map (fun r => mkRecord r ((parseZipCell r.zipCell).getD []))) ∧
    ((∃ r ∈ rows, r.zipCell = .strBad) → loadData rows = []) := by
  constructor
  · intro h
    unfold loadData
    rw [applyZipParse_ok h]
  · intro h
    unfold loadData
    rw [applyZipParse_bad h]

/-- Witness for C8 (amended): a well-formed row followed by a NaN row loads
as "list kept, empty list", and a dataset containing an unevaluable string
row loads as the empty dataset. -/
theorem c8_ingestion_amended_witness :
    (∀ r ∈ [(⟨.strList ["10001"], ⟨2024, 1, 1⟩, "FELONY", 1, "Area A", none, none⟩ : RawRow),
             ⟨.nonString, ⟨2024, 2, 1⟩, "FELONY", 2, "Area B", none, none⟩],
        ¬ r.zipCell = ZipCell.strBad) ∧
    loadData [⟨.strList ["10001"], ⟨2024, 1, 1⟩, "FELONY", 1, "Area A", none, none⟩,
              ⟨.nonString, ⟨2024, 2, 1⟩, "FELONY", 2, "Area B", none, none⟩] =
      [(⟨["10001"], ⟨2024, 1, 1⟩, "FELONY", 1, "Area A", none, none⟩ : Record),
       ⟨[], ⟨2024, 2, 1⟩, "FELONY", 2, "Area B", none, none⟩] ∧
    (∃ r ∈ [(⟨ZipCell.strBad, ⟨2024, 3, 1⟩, "FELONY", 3, "Area C", none, none⟩ : RawRow)],
        r.zipCell = ZipCell.strBad) ∧
    loadData [(⟨ZipCell.strBad, ⟨2024, 3, 1⟩, "FELONY", 3, "Area C", none, none⟩ : RawRow)] = [] := by
  refine ⟨by decide, ?_, by decide, ?_⟩
  · exact (c8_ingestion_amended _).1 (by decide)
  · exact (c8_ingestion_amended _).2 (by decide)

/-- C10: the per-category place-count dictionary has an entry (initialised
to 0) for every requested category, including those outside the colour
vocabulary; an unknown category is skipped before any nearby-place lookup
and its count stays 0; and an empty category list yields an empty count
dictionary with no lookup at all. -/
theorem c10_place_counts (budget : ℚ) (env : MapEnv) (types : List String)
    (t : String) :
    (t ∈ types → t ∈ dictKeys (searchPlaces budget types env).counts) ∧
    (t ∈ types → isKnownType t = false →
      ¬ t ∈ (searchPlaces budget types env).lookups ∧
      dictGet (searchPlaces budget types env).counts t = 0) ∧
    searchPlaces budget [] env = ⟨[], [], [], [], [], []⟩ := by
  refine ⟨?_, ?_, rfl⟩
  · intro ht
    unfold searchPlaces
    rw [foldl_counts_keys]
    exact mem_dictKeys_initCounts ht
  · intro ht hk
    unfold searchPlaces
    obtain ⟨h1, h2⟩ := foldl_unknown_invariant budget env hk types
      ⟨[], initCounts types, [], [], [], []⟩ (fun hc => absurd hc (List.not_mem_nil t))
    refine ⟨h1, ?_⟩
    rw [h2, dictGet_initCounts]

/-- Witness for C10: requesting supermarket and the unknown category
nightclub gives nightclub a zero entry and no lookup. -/
theorem c10_place_counts_witness :
    ("nightclub" ∈ (["supermarket", "nightclub"] : List String)) ∧
    isKnownType "nightclub" = false ∧
    "nightclub" ∈ dictKeys (searchPlaces 15 ["supermarket", "nightclub"] envOk).counts ∧
    ¬ "nightclub" ∈ (searchPlaces 15 ["supermarket", "nightclub"] envOk).lookups ∧
    dictGet (searchPlaces 15 ["supermarket", "nightclub"] envOk).counts "nightclub" = 0 :=
  ⟨by decide, by decide,
   (c10_place_counts 15 envOk ["supermarket", "nightclub"] "nightclub").1 (by decide),
   ((c10_place_counts 15 envOk ["supermarket", "nightclub"] "nightclub").2.1
     (by decide) (by decide)).1,
   ((c10_place_counts 15 envOk ["supermarket", "nightclub"] "nightclub").2.1
     (by decide) (by decide)).2⟩

end NycApp
